import Mathlib

/-!
Verification of the werkday sync and local-cache logic.

The definitions below are a shallow embedding of the server code in
src/src-server/storage.ts and src/src-server/index.ts:

* JSON `null` and absent optional values are modelled as `Option.none`;
  a JSON object field that may be missing from a stored document is
  modelled as an outer `Option` (presence) around the field value.
* ISO-8601 timestamp strings are modelled as natural numbers counting
  seconds since the epoch in UTC; the JavaScript idiom
  `new Date(s).toISOString().split("T")[0]` (the UTC calendar date of a
  timestamp) is modelled by `dayOf`, and a `YYYY-MM-DD` date string is
  modelled as the corresponding UTC day index.
* The flat-file blob store is modelled by passing the stored value
  explicitly; the per-date daily store is a function from day index to
  an optional bucket.
-/

namespace Werkday

/-! ### Config data model (src/src-server/storage.ts, AppConfig) -/

inductive Theme where
  | dark
  | light
deriving DecidableEq

/-- The github section of AppConfig. -/
structure GithubConfig where
  token : Option String
  username : Option String
  avatarUrl : Option String
  organizations : List String
  repositories : List String
deriving DecidableEq

/-- The jira section of AppConfig. -/
structure JiraConfig where
  domain : Option String
  email : Option String
  apiToken : Option String
  displayName : Option String
  accountId : Option String
  projects : List String
deriving DecidableEq

/-- The openrouter section of AppConfig. -/
structure OpenrouterConfig where
  apiKey : Option String
  model : String
deriving DecidableEq

/-- The preferences section of AppConfig. -/
structure Preferences where
  theme : Theme
  sidebarCollapsed : Bool
deriving DecidableEq

/-- AppConfig (storage.ts lines 46-70). -/
structure AppConfig where
  github : GithubConfig
  jira : JiraConfig
  openrouter : OpenrouterConfig
  preferences : Preferences
deriving DecidableEq

/-- DEFAULT_CONFIG (storage.ts lines 72-96). -/
def DEFAULT_CONFIG : AppConfig :=
  { github :=
      { token := none
        username := none
        avatarUrl := none
        organizations := []
        repositories := [] }
    jira :=
      { domain := none
        email := none
        apiToken := none
        displayName := none
        accountId := none
        projects := [] }
    openrouter :=
      { apiKey := none
        model := "anthropic/claude-haiku-4.5" }
    preferences :=
      { theme := Theme.dark
        sidebarCollapsed := false } }

/-- A github section as it may appear in a stored or posted JSON document:
every key may be absent (outer `Option`), and string fields may be null
(inner `Option`). -/
structure StoredGithub where
  token : Option (Option String) := none
  username : Option (Option String) := none
  avatarUrl : Option (Option String) := none
  organizations : Option (List String) := none
  repositories : Option (List String) := none
deriving DecidableEq

/-- A jira section as it may appear in a stored or posted JSON document. -/
structure StoredJira where
  domain : Option (Option String) := none
  email : Option (Option String) := none
  apiToken : Option (Option String) := none
  displayName : Option (Option String) := none
  accountId : Option (Option String) := none
  projects : Option (List String) := none
deriving DecidableEq

/-- An openrouter section as it may appear in a stored or posted JSON document. -/
structure StoredOpenrouter where
  apiKey : Option (Option String) := none
  model : Option String := none
deriving DecidableEq

/-- A preferences section as it may appear in a stored or posted JSON document. -/
structure StoredPreferences where
  theme : Option Theme := none
  sidebarCollapsed : Option Bool := none
deriving DecidableEq

/-- A config document as it may appear on disk or in a POST body: every
top-level section may be absent. -/
structure StoredConfig where
  github : Option StoredGithub := none
  jira : Option StoredJira := none
  openrouter : Option StoredOpenrouter := none
  preferences : Option StoredPreferences := none
deriving DecidableEq

/-- The JavaScript spread `{...cur, ...upd}` for the github section: a key
present in `upd` (even with a null value) overrides, an absent key keeps
the current value; an absent section keeps the whole current section. -/
def mergeGithub (cur : GithubConfig) (upd : Option StoredGithub) : GithubConfig :=
  match upd with
  | none => cur
  | some u =>
    { token := u.token.getD cur.token
      username := u.username.getD cur.username
      avatarUrl := u.avatarUrl.getD cur.avatarUrl
      organizations := u.organizations.getD cur.organizations
      repositories := u.repositories.getD cur.repositories }

/-- Spread merge for the jira section. -/
def mergeJira (cur : JiraConfig) (upd : Option StoredJira) : JiraConfig :=
  match upd with
  | none => cur
  | some u =>
    { domain := u.domain.getD cur.domain
      email := u.email.getD cur.email
      apiToken := u.apiToken.getD cur.apiToken
      displayName := u.displayName.getD cur.displayName
      accountId := u.accountId.getD cur.accountId
      projects := u.projects.getD cur.projects }

/-- Spread merge for the openrouter section. -/
def mergeOpenrouter (cur : OpenrouterConfig) (upd : Option StoredOpenrouter) : OpenrouterConfig :=
  match upd with
  | none => cur
  | some u =>
    { apiKey := u.apiKey.getD cur.apiKey
      model := u.model.getD cur.model }

/-- Spread merge for the preferences section. -/
def mergePreferences (cur : Preferences) (upd : Option StoredPreferences) : Preferences :=
  match upd with
  | none => cur
  | some u =>
    { theme := u.theme.getD cur.theme
      sidebarCollapsed := u.sidebarCollapsed.getD cur.sidebarCollapsed }

/-- getConfig (storage.ts lines 98-107). The argument is the parsed
config.json document: `none` models an absent or unparseable file, for
which readJsonFile returns DEFAULT_CONFIG; otherwise each section is
spread over the defaults. -/
def getConfig (file : Option StoredConfig) : AppConfig :=
  match file with
  | none => DEFAULT_CONFIG
  | some saved =>
    { github := mergeGithub DEFAULT_CONFIG.github saved.github
      jira := mergeJira DEFAULT_CONFIG.jira saved.jira
      openrouter := mergeOpenrouter DEFAULT_CONFIG.openrouter saved.openrouter
      preferences := mergePreferences DEFAULT_CONFIG.preferences saved.preferences }

/-- saveConfig (storage.ts lines 109-121): one-level-deep merge of a
partial update into the current config, returning what is persisted. -/
def saveConfig (current : AppConfig) (config : StoredConfig) : AppConfig :=
  { github := mergeGithub current.github config.github
    jira := mergeJira current.jira config.jira
    openrouter := mergeOpenrouter current.openrouter config.openrouter
    preferences := mergePreferences current.preferences config.preferences }

/-- The truthy-and-not-placeholder test `!!v && v !== "***"` used by the
config read endpoints on secret fields (index.ts lines 884, 896, 2009-2010):
null and the empty string are falsy. -/
def isValidSecret : Option String → Bool
  | none => false
  | some s => !(s == "") && !(s == "***")

/-- GET /api/config (index.ts lines 2006-2022): the stored config with
github.token and openrouter.apiKey replaced by the placeholder when they
hold a valid secret, and by null otherwise. -/
def maskedConfig (c : AppConfig) : AppConfig :=
  { c with
    github :=
      { c.github with token := if isValidSecret c.github.token then some "***" else none }
    openrouter :=
      { c.openrouter with apiKey := if isValidSecret c.openrouter.apiKey then some "***" else none } }

/-- POST /api/config (index.ts lines 2024-2028): the body is passed to
saveConfig unchanged. -/
def postConfig (current : AppConfig) (body : StoredConfig) : AppConfig :=
  saveConfig current body

/-- The JSON body of POST /api/github/config. `none` models an absent or
null field. -/
structure GithubConfigBody where
  token : Option String := none
  username : Option String := none
  avatarUrl : Option String := none
  organizations : Option (List String) := none
  repositories : Option (List String) := none
deriving DecidableEq

/-- POST /api/github/config (index.ts lines 907-926): a falsy or
placeholder token in the body keeps the stored token; the remaining
fields fall back to the stored values via `??`. -/
def postGithubConfig (c : AppConfig) (body : GithubConfigBody) : AppConfig :=
  let newToken : Option String :=
    match body.token with
    | some s => if !(s == "") && !(s == "***") then some s else c.github.token
    | none => c.github.token
  saveConfig c
    { github := some
        { token := some newToken
          username := some (body.username.or c.github.username)
          avatarUrl := some (body.avatarUrl.or c.github.avatarUrl)
          organizations := some (body.organizations.getD c.github.organizations)
          repositories := some (body.repositories.getD c.github.repositories) } }

/-- The JSON body of POST /api/config/openrouter. The handler tells an
explicit null apiKey (disconnect) apart from an absent one, so apiKey
carries two Option layers: the outer models key presence, the inner a
null value. -/
structure OpenrouterConfigBody where
  apiKey : Option (Option String) := none
  model : Option String := none
deriving DecidableEq

/-- POST /api/config/openrouter (index.ts lines 2030-2045): an explicit
null apiKey disconnects, a truthy non-placeholder value is stored, and
anything else — absent, empty, or the placeholder — keeps the stored
key; the model falls back to the stored value via `??`. -/
def postOpenrouterConfig (c : AppConfig) (body : OpenrouterConfigBody) : AppConfig :=
  let newApiKey : Option String :=
    match body.apiKey with
    | some none => none
    | some (some s) => if !(s == "") && !(s == "***") then some s else c.openrouter.apiKey
    | none => c.openrouter.apiKey
  saveConfig c
    { openrouter := some
        { apiKey := some newApiKey
          model := some (body.model.getD c.openrouter.model) } }

/-! ### Notes store (storage.ts lines 208-247) -/

structure Note where
  id : String
  title : String
  content : String
  createdAt : String
  updatedAt : String
  tags : List String
deriving DecidableEq

/-- saveNote (storage.ts lines 230-241): replace the first note with the
same id in place, otherwise unshift the new note to the front. -/
def saveNote (notes : List Note) (note : Note) : List Note :=
  match notes.findIdx? (fun n => n.id == note.id) with
  | some i => notes.set i note
  | none => note :: notes

/-- deleteNote (storage.ts lines 243-247): keep exactly the notes whose id
differs. -/
def deleteNote (notes : List Note) (id : String) : List Note :=
  notes.filter (fun n => !(n.id == id))

/-! ### Rolling activity caches (storage.ts lines 125-169 and 251-304) -/

inductive GitHubActivityType where
  | commit
  | pr
  | review
  | issue
deriving DecidableEq

inductive GitHubStatus where
  | open
  | merged
  | closed
deriving DecidableEq

/-- GitHubActivity (storage.ts lines 125-135); `date` is the timestamp in
seconds since the epoch. -/
structure GitHubActivity where
  id : String
  type : GitHubActivityType
  title : String
  repo : String
  date : Nat
  url : String
  status : Option GitHubStatus := none
  additions : Option Nat := none
  deletions : Option Nat := none
deriving DecidableEq

/-- GitHubCache (storage.ts lines 137-140). -/
structure GitHubCache where
  lastSync : Option Nat
  activities : List GitHubActivity
deriving DecidableEq

/-- addGitHubActivities (storage.ts lines 155-169): drop incoming records
whose id is already cached, prepend the rest, sort descending by date
(the JavaScript comparator returns `b.date - a.date`), keep the first
500, and stamp lastSync with the current time. -/
def addGitHubActivities (cache : GitHubCache) (activities : List GitHubActivity) (now : Nat) :
    GitHubCache :=
  let existingIds := cache.activities.map (fun a => a.id)
  let newActivities := activities.filter (fun a => decide (a.id ∉ existingIds))
  { activities :=
      ((newActivities ++ cache.activities).mergeSort
          (fun a b => decide (b.date ≤ a.date))).take 500
    lastSync := some now }

inductive JiraActivityType where
  | issue
  | transition
  | worklog
  | comment
deriving DecidableEq

/-- The optional details payload of a JiraActivity (storage.ts lines 260-269). -/
structure JiraDetails where
  fromStatus : Option String := none
  toStatus : Option String := none
  timeSpent : Option String := none
  timeSpentSeconds : Option Nat := none
  commentBody : Option String := none
  field : Option String := none
  fromValue : Option String := none
  toValue : Option String := none
deriving DecidableEq

/-- JiraActivity (storage.ts lines 251-270); `date` is the timestamp in
seconds since the epoch. -/
structure JiraActivity where
  id : String
  type : JiraActivityType
  issueKey : String
  issueSummary : String
  project : String
  date : Nat
  url : String
  author : Option String := none
  details : Option JiraDetails := none
deriving DecidableEq

/-- JiraCache (storage.ts lines 272-275). -/
structure JiraCache where
  lastSync : Option Nat
  activities : List JiraActivity
deriving DecidableEq

/-- addJiraActivities (storage.ts lines 290-304): same algorithm as
addGitHubActivities, over the jira cache. -/
def addJiraActivities (cache : JiraCache) (activities : List JiraActivity) (now : Nat) :
    JiraCache :=
  let existingIds := cache.activities.map (fun a => a.id)
  let newActivities := activities.filter (fun a => decide (a.id ∉ existingIds))
  { activities :=
      ((newActivities ++ cache.activities).mergeSort
          (fun a b => decide (b.date ≤ a.date))).take 500
    lastSync := some now }

/-! ### Jira sync input data (the upstream search result consumed by
POST /api/jira/sync, index.ts lines 1426-1537) -/

/-- One entry of `history.items`; fromString and toString may be null. -/
structure JiraHistoryItem where
  field : String
  fromString : Option String := none
  toString : Option String := none
deriving DecidableEq

/-- One entry of `issue.changelog.histories`; `created` is a timestamp in
seconds since the epoch. -/
structure JiraHistory where
  id : String
  created : Nat
  author : Option String := none
  items : List JiraHistoryItem := []
deriving DecidableEq

/-- One entry of `issue.fields.comment.comments`; `body` models the plain
text already flattened out of the rich-text document by
extractTextFromADF. -/
structure JiraComment where
  id : String
  created : Nat
  author : Option String := none
  body : String := ""
deriving DecidableEq

/-- One entry of `issue.fields.worklog.worklogs`; `comment` models the
flattened rich-text worklog comment when present. -/
structure JiraWorklog where
  id : String
  started : Nat
  author : Option String := none
  timeSpent : Option String := none
  timeSpentSeconds : Option Nat := none
  comment : Option String := none
deriving DecidableEq

/-- One issue of the upstream search result, with the fields the sync
handler reads. An absent changelog, comment container, or worklog
container is modelled as the empty list. -/
structure JiraIssue where
  id : String
  key : String
  summary : String
  project : String
  updated : Nat
  histories : List JiraHistory := []
  comments : List JiraComment := []
  worklogs : List JiraWorklog := []
deriving DecidableEq

/-- The UTC calendar day of a timestamp: models
`new Date(ts).toISOString().split("T")[0]` with days as day indices. -/
def dayOf (ts : Nat) : Nat := ts / 86400

/-- Comment text truncation (index.ts line 1492): texts longer than 200
characters are cut and suffixed with an ellipsis. -/
def truncate200 (s : String) : String :=
  if s.length > 200 then (s.take 200) ++ "..." else s

/-- The transition record pushed for a status item of a changelog history
(index.ts lines 1455-1468). -/
def transitionRecord (baseUrl : String) (issue : JiraIssue) (history : JiraHistory)
    (item : JiraHistoryItem) : JiraActivity :=
  { id := "transition-" ++ issue.id ++ "-" ++ history.id
    type := JiraActivityType.transition
    issueKey := issue.key
    issueSummary := issue.summary
    project := issue.project
    date := history.created
    url := baseUrl ++ "/browse/" ++ issue.key
    author := history.author
    details := some { fromStatus := item.fromString, toStatus := item.toString } }

/-- The comment record pushed for a comment created on the target day
(index.ts lines 1482-1494). -/
def commentRecord (baseUrl : String) (issue : JiraIssue) (comment : JiraComment) : JiraActivity :=
  { id := "comment-" ++ issue.id ++ "-" ++ comment.id
    type := JiraActivityType.comment
    issueKey := issue.key
    issueSummary := issue.summary
    project := issue.project
    date := comment.created
    url := baseUrl ++ "/browse/" ++ issue.key ++ "?focusedCommentId=" ++ comment.id
    author := comment.author
    details := some { commentBody := some (truncate200 comment.body) } }

/-- The worklog record pushed for a worklog started on the target day
(index.ts lines 1505-1519). -/
def worklogRecord (baseUrl : String) (issue : JiraIssue) (worklog : JiraWorklog) : JiraActivity :=
  { id := "worklog-" ++ issue.id ++ "-" ++ worklog.id
    type := JiraActivityType.worklog
    issueKey := issue.key
    issueSummary := issue.summary
    project := issue.project
    date := worklog.started
    url := baseUrl ++ "/browse/" ++ issue.key ++ "?focusedWorklogId=" ++ worklog.id
    author := worklog.author
    details := some
      { timeSpent := worklog.timeSpent
        timeSpentSeconds := worklog.timeSpentSeconds
        commentBody := worklog.comment } }

/-- The synthetic issue-touched record (index.ts lines 1527-1535); its
date is the top-level `updated` timestamp of the issue itself. -/
def issueRecord (baseUrl : String) (issue : JiraIssue) : JiraActivity :=
  { id := "issue-" ++ issue.id
    type := JiraActivityType.issue
    issueKey := issue.key
    issueSummary := issue.summary
    project := issue.project
    date := issue.updated
    url := baseUrl ++ "/browse/" ++ issue.key }

/-- The transition records of one issue for a target day (index.ts lines
1448-1473): histories whose created timestamp falls on the day, one
record per item whose field is "status". -/
def transitionRecords (baseUrl : String) (day : Nat) (issue : JiraIssue) : List JiraActivity :=
  issue.histories.flatMap (fun history =>
    if dayOf history.created = day then
      (history.items.filter (fun item => item.field == "status")).map
        (transitionRecord baseUrl issue history)
    else [])

/-- The comment records of one issue for a target day (index.ts lines
1476-1497). -/
def commentRecords (baseUrl : String) (day : Nat) (issue : JiraIssue) : List JiraActivity :=
  issue.comments.flatMap (fun comment =>
    if dayOf comment.created = day then [commentRecord baseUrl issue comment] else [])

/-- The worklog records of one issue for a target day (index.ts lines
1500-1522). -/
def worklogRecords (baseUrl : String) (day : Nat) (issue : JiraIssue) : List JiraActivity :=
  issue.worklogs.flatMap (fun worklog =>
    if dayOf worklog.started = day then [worklogRecord baseUrl issue worklog] else [])

/-- The records one issue contributes to a target day of the sync loop
(index.ts lines 1444-1537): its matching transitions, comments, and
worklogs in that order, followed by the synthetic issue-touched record
when at least one sub-entity matched (hasActivity). -/
def processIssue (baseUrl : String) (day : Nat) (issue : JiraIssue) : List JiraActivity :=
  let recs := transitionRecords baseUrl day issue ++ commentRecords baseUrl day issue ++
    worklogRecords baseUrl day issue
  if recs.isEmpty then [] else recs ++ [issueRecord baseUrl issue]

/-! ### Day summaries, daily buckets, and the sync loop -/

/-- Math.round of seconds converted to tenths of hours, as in
`Math.round(totalTimeSeconds / 3600 * 10) / 10` (index.ts lines 1547,
1586, 1356): round-half-up of `sec * 10 / 3600`. -/
def roundTenths (sec : Nat) : Nat := (20 * sec + 3600) / 7200

/-- Total seconds over worklog records:
`worklogs.reduce((acc, w) => acc + (w.details?.timeSpentSeconds || 0), 0)`. -/
def totalSeconds (worklogs : List JiraActivity) : Nat :=
  (worklogs.map (fun w =>
    match w.details with
    | some d => d.timeSpentSeconds.getD 0
    | none => 0)).sum

/-- The per-day or per-range summary object. `totalTimeLogged` models the
rendered `"Xh"` string as tenths of hours, null when the rounded total
is zero. -/
structure JiraDaySummary where
  issuesWorkedOn : Nat
  transitionsMade : Nat
  commentsMade : Nat
  worklogsAdded : Nat
  totalTimeLogged : Option Nat
deriving DecidableEq

/-- The summary computed from a list of activity records (index.ts lines
1539-1555 take `issuesWorkedOn` from the set of keys of issues with
activity; lines 1353-1356 and 1583-1586 take it from the set of
issueKey over the records; both counts of distinct keys). -/
def summaryOf (issuesWorkedOn : Nat) (activities : List JiraActivity) : JiraDaySummary :=
  let worklogs := activities.filter (fun a => a.type == JiraActivityType.worklog)
  let tenths := roundTenths (totalSeconds worklogs)
  { issuesWorkedOn := issuesWorkedOn
    transitionsMade := (activities.filter (fun a => a.type == JiraActivityType.transition)).length
    commentsMade := (activities.filter (fun a => a.type == JiraActivityType.comment)).length
    worklogsAdded := worklogs.length
    totalTimeLogged := if tenths > 0 then some tenths else none }

/-- The number of distinct issue keys added to the `issuesWithUserActivity`
set while processing a day (index.ts lines 1442, 1526, 1550). -/
def activeIssueCount (baseUrl : String) (day : Nat) (issues : List JiraIssue) : Nat :=
  ((issues.filter (fun i => !(processIssue baseUrl day i).isEmpty)).map
    (fun i => i.key)).dedup.length

/-- JiraDailyData: the daily bucket written by the sync loop (index.ts
lines 1559-1564); `syncedAt` is the write timestamp. -/
structure JiraDailyData where
  date : Nat
  syncedAt : Nat
  activities : List JiraActivity
  summary : JiraDaySummary
deriving DecidableEq

/-- The bucket the sync loop builds for one day from the upstream search
result (index.ts lines 1440-1564). -/
def mkDailyData (baseUrl : String) (now : Nat) (day : Nat) (issues : List JiraIssue) :
    JiraDailyData :=
  let dayActivities := issues.flatMap (processIssue baseUrl day)
  { date := day
    syncedAt := now
    activities := dayActivities
    summary := summaryOf (activeIssueCount baseUrl day issues) dayActivities }

/-- The daily-bucket store: one optional bucket per day index. -/
def DailyStore : Type := Nat → Option JiraDailyData

/-- Modelled from the spec: `saveJiraDailyData` is imported by the server
from the storage module, but its implementation is not among the
analyzed sources; spec section 4.3 specifies `put(date, bucket)` as a
full overwrite of the bucket stored for that date. -/
def saveJiraDailyData (store : DailyStore) (data : JiraDailyData) : DailyStore :=
  fun k => if k = data.date then some data else store k

/-- Modelled from the spec: `getJiraDailyData` is imported by the server
from the storage module, but its implementation is not among the
analyzed sources; spec section 4.3 specifies `get(date)` as returning
the stored bucket or absence. -/
def getJiraDailyData (store : DailyStore) (day : Nat) : Option JiraDailyData := store day

/-- The inclusive day range both jira endpoints generate by stepping one
day at a time from the `from` date while it is at most the `to` date
(index.ts lines 1292-1299 and 1395-1402). -/
def rangeDays (lo hi : Nat) : List Nat :=
  (List.range (hi + 1 - lo)).map (fun i => lo + i)

/-- The aggregated response shape shared by GET /api/jira/activity and
POST /api/jira/sync (the echoed from/to fields are omitted). -/
structure JiraRangeResponse where
  synced : Bool
  syncedAt : Option Nat
  issues : List JiraActivity
  transitions : List JiraActivity
  comments : List JiraActivity
  worklogs : List JiraActivity
  summary : JiraDaySummary
deriving DecidableEq

/-- The response GET /api/jira/activity returns when the range is not
fully synced or holds no activities (index.ts lines 1318-1337). -/
def emptyRangeResponse : JiraRangeResponse :=
  { synced := false
    syncedAt := none
    issues := []
    transitions := []
    comments := []
    worklogs := []
    summary :=
      { issuesWorkedOn := 0
        transitionsMade := 0
        commentsMade := 0
        worklogsAdded := 0
        totalTimeLogged := none } }

/-- The latestSyncedAt update of the read loop (index.ts lines 1312-1314):
take the bucket timestamp when none is held yet or when it is larger. -/
def updateLatest (latest : Option Nat) (syncedAt : Nat) : Option Nat :=
  match latest with
  | none => some syncedAt
  | some l => if syncedAt > l then some syncedAt else some l

/-- One iteration of the read loop of GET /api/jira/activity (index.ts
lines 1306-1316): a missing bucket clears the all-synced flag, a present
bucket contributes its activities and sync time. -/
def collectStep (store : DailyStore) (acc : List JiraActivity × Option Nat × Bool) (day : Nat) :
    List JiraActivity × Option Nat × Bool :=
  match getJiraDailyData store day with
  | none => (acc.1, acc.2.1, false)
  | some cachedData =>
    (acc.1 ++ cachedData.activities, updateLatest acc.2.1 cachedData.syncedAt, acc.2.2)

/-- First-occurrence dedup by id, the filter with a seen set of GET
/api/jira/activity (index.ts lines 1340-1345). -/
def dedupByIdGo (seen : List String) : List JiraActivity → List JiraActivity
  | [] => []
  | a :: rest =>
    if a.id ∈ seen then dedupByIdGo seen rest else a :: dedupByIdGo (a.id :: seen) rest

/-- Dedup of the concatenated range activities by id, keeping first
occurrences. -/
def dedupById (l : List JiraActivity) : List JiraActivity := dedupByIdGo [] l

/-- GET /api/jira/activity (index.ts lines 1283-1375): the cache-only
range read. Walks the days collecting buckets; if any day has no bucket
or the concatenation is empty, answers the not-synced empty response;
otherwise dedups by id, groups by type, and computes the summary. -/
def getActivityForRange (store : DailyStore) (days : List Nat) : JiraRangeResponse :=
  let acc := days.foldl (collectStep store) ([], none, true)
  let allActivities := acc.1
  let latestSyncedAt := acc.2.1
  let allSynced := acc.2.2
  if !allSynced || allActivities.isEmpty then emptyRangeResponse
  else
    let deduped := dedupById allActivities
    { synced := true
      syncedAt := latestSyncedAt
      issues := deduped.filter (fun a => a.type == JiraActivityType.issue)
      transitions := deduped.filter (fun a => a.type == JiraActivityType.transition)
      comments := deduped.filter (fun a => a.type == JiraActivityType.comment)
      worklogs := deduped.filter (fun a => a.type == JiraActivityType.worklog)
      summary := summaryOf (deduped.map (fun a => a.issueKey)).dedup.length deduped }

/-- The per-day loop of POST /api/jira/sync (index.ts lines 1410-1572)
with the upstream query abstracted as a fallible function from days to
issue lists. Each successful day overwrites its bucket before the next
day is fetched; a failing fetch aborts the loop with the error, leaving
the store as already written. Returns the final store and either the
error or the concatenation of the per-day record lists. -/
def syncLoop (baseUrl : String) (now : Nat) (fetch : Nat → Except String (List JiraIssue)) :
    List Nat → DailyStore → DailyStore × Except String (List JiraActivity)
  | [], store => (store, Except.ok [])
  | day :: rest, store =>
    match fetch day with
    | Except.error e => (store, Except.error e)
    | Except.ok issues =>
      let dailyData := mkDailyData baseUrl now day issues
      let store1 := saveJiraDailyData store dailyData
      match syncLoop baseUrl now fetch rest store1 with
      | (store2, Except.ok acts) => (store2, Except.ok (dailyData.activities ++ acts))
      | (store2, Except.error e) => (store2, Except.error e)

/-- POST /api/jira/sync (index.ts lines 1378-1610): run the per-day loop
over the range, then build the aggregated response from the
concatenated activities without dedup (lines 1577-1604); an error from
any day surfaces as the error envelope of the catch branch (lines
1605-1609). The write-through to the legacy rolling cache (line 1575,
addJiraActivities) is modelled separately. -/
def postJiraSync (baseUrl : String) (now : Nat) (fetch : Nat → Except String (List JiraIssue))
    (days : List Nat) (store : DailyStore) : DailyStore × Except String JiraRangeResponse :=
  match syncLoop baseUrl now fetch days store with
  | (store1, Except.error e) => (store1, Except.error e)
  | (store1, Except.ok allActivities) =>
    (store1, Except.ok
      { synced := true
        syncedAt := if days.isEmpty then none else some now
        issues := allActivities.filter (fun a => a.type == JiraActivityType.issue)
        transitions := allActivities.filter (fun a => a.type == JiraActivityType.transition)
        comments := allActivities.filter (fun a => a.type == JiraActivityType.comment)
        worklogs := allActivities.filter (fun a => a.type == JiraActivityType.worklog)
        summary := summaryOf (allActivities.map (fun a => a.issueKey)).dedup.length
          allActivities })

/-! ### Concrete instances used by witnesses and counterexamples -/

/-- The starting config of the spec merge scenario: token t1 and one
selected repository. -/
def configT1 : AppConfig :=
  { DEFAULT_CONFIG with
    github := { DEFAULT_CONFIG.github with token := some "t1", repositories := ["a/b"] } }

/-- The update of the spec merge scenario: only the token of the github
section is supplied. -/
def updateT2 : StoredConfig :=
  { github := some { token := some (some "t2") } }

/-- A stored config document supplying only the github token. -/
def storedTokenOnly : StoredConfig :=
  { github := some { token := some (some "tok") } }

/-- A config holding a real github secret. -/
def configSecret : AppConfig :=
  { DEFAULT_CONFIG with
    github := { DEFAULT_CONFIG.github with token := some "s3cret" } }

/-- A config holding both a real github secret and a real openrouter
key. -/
def configBothSecrets : AppConfig :=
  { DEFAULT_CONFIG with
    github := { DEFAULT_CONFIG.github with token := some "s3cret" }
    openrouter := { DEFAULT_CONFIG.openrouter with apiKey := some "orkey" } }

/-- The masked display of configSecret turned back into a posted JSON
document with every field present, as a client round-tripping the
displayed config through the generic config write would send it. -/
def maskedBodyFull : StoredConfig :=
  { github := some
      { token := some (some "***"), username := some none, avatarUrl := some none
        organizations := some [], repositories := some [] }
    jira := some
      { domain := some none, email := some none, apiToken := some none
        displayName := some none, accountId := some none, projects := some [] }
    openrouter := some { apiKey := some none, model := some "anthropic/claude-haiku-4.5" }
    preferences := some { theme := some Theme.dark, sidebarCollapsed := some false } }

/-- Two github records sharing one id inside a single incoming batch. -/
def ghDupA : GitHubActivity :=
  { id := "x", type := GitHubActivityType.commit, title := "t1", repo := "r", date := 5
    url := "u" }

/-- The second record with the same id as ghDupA. -/
def ghDupB : GitHubActivity :=
  { id := "x", type := GitHubActivityType.commit, title := "t2", repo := "r", date := 3
    url := "u" }

/-- A single github record with a fresh id. -/
def ghSolo : GitHubActivity :=
  { id := "y", type := GitHubActivityType.pr, title := "t", repo := "r", date := 8
    url := "u" }

/-- A single jira record. -/
def jiraSolo : JiraActivity :=
  { id := "j", type := JiraActivityType.comment, issueKey := "K-1", issueSummary := "s"
    project := "K", date := 4, url := "u" }

/-- Three notes with distinct ids. -/
def notesABC : List Note :=
  [ { id := "a", title := "ta", content := "ca", createdAt := "1", updatedAt := "1", tags := [] },
    { id := "b", title := "tb", content := "cb", createdAt := "2", updatedAt := "2", tags := [] },
    { id := "c", title := "tc", content := "cc", createdAt := "3", updatedAt := "3", tags := [] } ]

/-- A replacement for the note with id b. -/
def noteB2 : Note :=
  { id := "b", title := "tb2", content := "cb2", createdAt := "2", updatedAt := "9", tags := [] }

/-- An issue with a single comment posted at the last second of UTC day 5. -/
def issueLateComment : JiraIssue :=
  { id := "9", key := "K-9", summary := "s", project := "K", updated := 6 * 86400 + 50
    comments := [{ id := "c1", created := 5 * 86400 + 86399, body := "hello" }] }

/-- Issue 1 as the upstream returns it for day 0: one status transition on
day 0. -/
def issueDayA : JiraIssue :=
  { id := "1", key := "K-1", summary := "s", project := "K", updated := 100
    histories :=
      [{ id := "10"
         created := 50
         items := [{ field := "status", fromString := some "A", toString := some "B" }] }] }

/-- The same issue 1 as the upstream returns it for day 1: another status
transition on day 1. -/
def issueDayB : JiraIssue :=
  { id := "1", key := "K-1", summary := "s", project := "K", updated := 86500
    histories :=
      [{ id := "11"
         created := 86450
         items := [{ field := "status", fromString := some "B", toString := some "C" }] }] }

/-- An upstream where issue 1 was touched on both day 0 and day 1. -/
def fetchTwoDays : Nat → Except String (List JiraIssue) :=
  fun d => if d = 0 then Except.ok [issueDayA]
    else if d = 1 then Except.ok [issueDayB] else Except.ok []

/-- The four records the two-day counterexample sync emits: transition
and issue-touched for day 0, then transition and issue-touched for day
1, with the issue-touched id repeated. -/
def twoDayActs : List JiraActivity :=
  [ { id := "transition-1-10", type := JiraActivityType.transition, issueKey := "K-1",
      issueSummary := "s", project := "K", date := 50,
      url := "https://acme.atlassian.net/browse/K-1",
      details := some { fromStatus := some "A", toStatus := some "B" } },
    { id := "issue-1", type := JiraActivityType.issue, issueKey := "K-1",
      issueSummary := "s", project := "K", date := 100,
      url := "https://acme.atlassian.net/browse/K-1" },
    { id := "transition-1-11", type := JiraActivityType.transition, issueKey := "K-1",
      issueSummary := "s", project := "K", date := 86450,
      url := "https://acme.atlassian.net/browse/K-1",
      details := some { fromStatus := some "B", toStatus := some "C" } },
    { id := "issue-1", type := JiraActivityType.issue, issueKey := "K-1",
      issueSummary := "s", project := "K", date := 86500,
      url := "https://acme.atlassian.net/browse/K-1" } ]


end Werkday

namespace Werkday

/-! ## Theorems -/

/-- C6: config partial updates merge one level deep per top-level section:
a section absent from the update is kept whole, and inside a supplied
section every unsupplied field keeps its stored value in the persisted
result of saveConfig. -/
theorem saveConfig_partial_update_frame (current : AppConfig) (config : StoredConfig) :
    ((config.github = none → (saveConfig current config).github = current.github) ∧
      ∀ g, config.github = some g →
        (g.token = none → (saveConfig current config).github.token = current.github.token) ∧
        (g.username = none →
          (saveConfig current config).github.username = current.github.username) ∧
        (g.avatarUrl = none →
          (saveConfig current config).github.avatarUrl = current.github.avatarUrl) ∧
        (g.organizations = none →
          (saveConfig current config).github.organizations = current.github.organizations) ∧
        (g.repositories = none →
          (saveConfig current config).github.repositories = current.github.repositories)) ∧
    ((config.jira = none → (saveConfig current config).jira = current.jira) ∧
      ∀ j, config.jira = some j →
        (j.domain = none → (saveConfig current config).jira.domain = current.jira.domain) ∧
        (j.email = none → (saveConfig current config).jira.email = current.jira.email) ∧
        (j.apiToken = none →
          (saveConfig current config).jira.apiToken = current.jira.apiToken) ∧
        (j.displayName = none →
          (saveConfig current config).jira.displayName = current.jira.displayName) ∧
        (j.accountId = none →
          (saveConfig current config).jira.accountId = current.jira.accountId) ∧
        (j.projects = none →
          (saveConfig current config).jira.projects = current.jira.projects)) ∧
    ((config.openrouter = none → (saveConfig current config).openrouter = current.openrouter) ∧
      ∀ o, config.openrouter = some o →
        (o.apiKey = none →
          (saveConfig current config).openrouter.apiKey = current.openrouter.apiKey) ∧
        (o.model = none →
          (saveConfig current config).openrouter.model = current.openrouter.model)) ∧
    ((config.preferences = none →
        (saveConfig current config).preferences = current.preferences) ∧
      ∀ p, config.preferences = some p →
        (p.theme = none →
          (saveConfig current config).preferences.theme = current.preferences.theme) ∧
        (p.sidebarCollapsed = none →
          (saveConfig current config).preferences.sidebarCollapsed =
            current.preferences.sidebarCollapsed)) := by
  refine ⟨⟨?_, ?_⟩, ⟨?_, ?_⟩, ⟨?_, ?_⟩, ⟨?_, ?_⟩⟩
  · intro h; simp [saveConfig, mergeGithub, h]
  · intro g hg
    exact ⟨fun h => by simp [saveConfig, mergeGithub, hg, h],
      fun h => by simp [saveConfig, mergeGithub, hg, h],
      fun h => by simp [saveConfig, mergeGithub, hg, h],
      fun h => by simp [saveConfig, mergeGithub, hg, h],
      fun h => by simp [saveConfig, mergeGithub, hg, h]⟩
  · intro h; simp [saveConfig, mergeJira, h]
  · intro j hj
    exact ⟨fun h => by simp [saveConfig, mergeJira, hj, h],
      fun h => by simp [saveConfig, mergeJira, hj, h],
      fun h => by simp [saveConfig, mergeJira, hj, h],
      fun h => by simp [saveConfig, mergeJira, hj, h],
      fun h => by simp [saveConfig, mergeJira, hj, h],
      fun h => by simp [saveConfig, mergeJira, hj, h]⟩
  · intro h; simp [saveConfig, mergeOpenrouter, h]
  · intro o ho
    exact ⟨fun h => by simp [saveConfig, mergeOpenrouter, ho, h],
      fun h => by simp [saveConfig, mergeOpenrouter, ho, h]⟩
  · intro h; simp [saveConfig, mergePreferences, h]
  · intro p hp
    exact ⟨fun h => by simp [saveConfig, mergePreferences, hp, h],
      fun h => by simp [saveConfig, mergePreferences, hp, h]⟩

/-- Witness for C6: the spec scenario where supplying only the github
token keeps the selected repositories and the jira section untouched. -/
theorem saveConfig_partial_update_frame_witness :
    (saveConfig configT1 updateT2).github.repositories = configT1.github.repositories ∧
    (saveConfig configT1 updateT2).jira = configT1.jira :=
  ⟨((saveConfig_partial_update_frame configT1 updateT2).1.2
      { token := some (some "t2") } rfl).2.2.2.2 rfl,
    (saveConfig_partial_update_frame configT1 updateT2).2.1.1 rfl⟩

/-- C9: getConfig returns a fully populated configuration: an absent or
unparseable file yields the built-in defaults, a stored section absent
from the document is taken whole from the defaults, and inside a stored
section each field resolves to the stored value when present and to the
default when absent. -/
theorem getConfig_fills_defaults :
    getConfig none = DEFAULT_CONFIG ∧
    ∀ saved : StoredConfig,
      ((saved.github = none → (getConfig (some saved)).github = DEFAULT_CONFIG.github) ∧
        ∀ g, saved.github = some g →
          (getConfig (some saved)).github.token = g.token.getD DEFAULT_CONFIG.github.token ∧
          (getConfig (some saved)).github.username =
            g.username.getD DEFAULT_CONFIG.github.username ∧
          (getConfig (some saved)).github.avatarUrl =
            g.avatarUrl.getD DEFAULT_CONFIG.github.avatarUrl ∧
          (getConfig (some saved)).github.organizations =
            g.organizations.getD DEFAULT_CONFIG.github.organizations ∧
          (getConfig (some saved)).github.repositories =
            g.repositories.getD DEFAULT_CONFIG.github.repositories) ∧
      ((saved.jira = none → (getConfig (some saved)).jira = DEFAULT_CONFIG.jira) ∧
        ∀ j, saved.jira = some j →
          (getConfig (some saved)).jira.domain = j.domain.getD DEFAULT_CONFIG.jira.domain ∧
          (getConfig (some saved)).jira.email = j.email.getD DEFAULT_CONFIG.jira.email ∧
          (getConfig (some saved)).jira.apiToken =
            j.apiToken.getD DEFAULT_CONFIG.jira.apiToken ∧
          (getConfig (some saved)).jira.displayName =
            j.displayName.getD DEFAULT_CONFIG.jira.displayName ∧
          (getConfig (some saved)).jira.accountId =
            j.accountId.getD DEFAULT_CONFIG.jira.accountId ∧
          (getConfig (some saved)).jira.projects =
            j.projects.getD DEFAULT_CONFIG.jira.projects) ∧
      ((saved.openrouter = none →
          (getConfig (some saved)).openrouter = DEFAULT_CONFIG.openrouter) ∧
        ∀ o, saved.openrouter = some o →
          (getConfig (some saved)).openrouter.apiKey =
            o.apiKey.getD DEFAULT_CONFIG.openrouter.apiKey ∧
          (getConfig (some saved)).openrouter.model =
            o.model.getD DEFAULT_CONFIG.openrouter.model) ∧
      ((saved.preferences = none →
          (getConfig (some saved)).preferences = DEFAULT_CONFIG.preferences) ∧
        ∀ p, saved.preferences = some p →
          (getConfig (some saved)).preferences.theme =
            p.theme.getD DEFAULT_CONFIG.preferences.theme ∧
          (getConfig (some saved)).preferences.sidebarCollapsed =
            p.sidebarCollapsed.getD DEFAULT_CONFIG.preferences.sidebarCollapsed) := by
  refine ⟨rfl, fun saved => ⟨⟨?_, ?_⟩, ⟨?_, ?_⟩, ⟨?_, ?_⟩, ⟨?_, ?_⟩⟩⟩
  · intro h; simp [getConfig, mergeGithub, h]
  · intro g hg; exact ⟨by simp [getConfig, mergeGithub, hg], by simp [getConfig, mergeGithub, hg],
      by simp [getConfig, mergeGithub, hg], by simp [getConfig, mergeGithub, hg],
      by simp [getConfig, mergeGithub, hg]⟩
  · intro h; simp [getConfig, mergeJira, h]
  · intro j hj; exact ⟨by simp [getConfig, mergeJira, hj], by simp [getConfig, mergeJira, hj],
      by simp [getConfig, mergeJira, hj], by simp [getConfig, mergeJira, hj],
      by simp [getConfig, mergeJira, hj], by simp [getConfig, mergeJira, hj]⟩
  · intro h; simp [getConfig, mergeOpenrouter, h]
  · intro o ho
    exact ⟨by simp [getConfig, mergeOpenrouter, ho], by simp [getConfig, mergeOpenrouter, ho]⟩
  · intro h; simp [getConfig, mergePreferences, h]
  · intro p hp
    exact ⟨by simp [getConfig, mergePreferences, hp], by simp [getConfig, mergePreferences, hp]⟩

/-- Witness for C9: a stored document supplying only the github token
resolves that token and fills the openrouter model from the defaults. -/
theorem getConfig_fills_defaults_witness :
    (getConfig (some storedTokenOnly)).github.token = some "tok" ∧
    (getConfig (some storedTokenOnly)).openrouter = DEFAULT_CONFIG.openrouter :=
  ⟨((getConfig_fills_defaults.2 storedTokenOnly).1.2
      { token := some (some "tok") } rfl).1,
    (getConfig_fills_defaults.2 storedTokenOnly).2.2.1.1 rfl⟩

/-- C10: saveNote is an upsert keyed by note id. With distinct stored ids,
saving a note with a fresh id prepends it; saving a note whose id is
stored at position i replaces exactly that position, keeping the length
and every other position; deleteNote removes exactly the notes carrying
the id and keeps the rest in order. -/
theorem saveNote_upsert_and_deleteNote (notes : List Note) (note : Note)
    (hnd : (notes.map (fun n => n.id)).Nodup) :
    ((∀ n ∈ notes, n.id ≠ note.id) → saveNote notes note = note :: notes) ∧
    (∀ i, ∀ hi : i < notes.length, (notes.get ⟨i, hi⟩).id = note.id →
      saveNote notes note = notes.set i note ∧
      (saveNote notes note).length = notes.length ∧
      (saveNote notes note)[i]? = some note ∧
      ∀ j, j ≠ i → (saveNote notes note)[j]? = notes[j]?) ∧
    (∀ id, (∀ n ∈ deleteNote notes id, n.id ≠ id) ∧
      (deleteNote notes id).Sublist notes ∧
      ∀ n ∈ notes, n.id ≠ id → n ∈ deleteNote notes id) := by
  refine ⟨?_, ?_, ?_⟩
  · intro hfresh
    have hnone : notes.findIdx? (fun n => n.id == note.id) = none := by
      rw [List.findIdx?_eq_none_iff]
      intro n hn
      simpa using hfresh n hn
    simp [saveNote, hnone]
  · intro i hi hid
    have hsome : notes.findIdx? (fun n => n.id == note.id) = some i := by
      rw [List.findIdx?_eq_some_iff_getElem]
      refine ⟨hi, by simpa using hid, ?_⟩
      intro j hji
      have hj : j < notes.length := Nat.lt_trans hji hi
      have hne : (notes.get ⟨j, hj⟩).id ≠ (notes.get ⟨i, hi⟩).id := by
        intro hEq
        have hlen : j < (notes.map (fun n => n.id)).length := by simpa using hj
        have hlen2 : i < (notes.map (fun n => n.id)).length := by simpa using hi
        have : j = i := by
          refine (@List.Nodup.getElem_inj_iff _ _ hnd j hlen i hlen2).mp ?_
          simpa using hEq
        exact absurd this (Nat.ne_of_lt hji)
      rw [hid] at hne
      simpa using hne
    have hset : saveNote notes note = notes.set i note := by
      simp [saveNote, hsome]
    refine ⟨hset, by simp [hset], by simp [hset, List.getElem?_set_self hi], ?_⟩
    intro j hj
    rw [hset]
    exact List.getElem?_set_ne (Ne.symm hj)
  · intro id
    refine ⟨?_, ?_, ?_⟩
    · intro n hn
      have := (List.mem_filter.mp hn).2
      simpa using this
    · exact List.filter_sublist notes
    · intro n hn hne
      exact List.mem_filter.mpr ⟨hn, by simpa using hne⟩

/-- Witness for C10: replacing the middle note of three keeps the length
and the first position, and deleting id a removes every note with it. -/
theorem saveNote_upsert_and_deleteNote_witness :
    saveNote notesABC noteB2 = notesABC.set 1 noteB2 ∧
    (saveNote notesABC noteB2)[0]? = notesABC[0]? ∧
    (∀ n ∈ deleteNote notesABC "a", n.id ≠ "a") := by
  have h := saveNote_upsert_and_deleteNote notesABC noteB2 (by decide)
  exact ⟨(h.2.1 1 (by decide) (by decide)).1,
    (h.2.1 1 (by decide) (by decide)).2.2.2 0 (by decide),
    (h.2.2 "a").1⟩

/-- Once the all-synced flag is cleared, no later iteration of the read
loop sets it again. -/
theorem collect_foldl_flag_false (store : DailyStore) (days : List Nat)
    (acc : List JiraActivity × Option Nat × Bool) (hacc : acc.2.2 = false) :
    (days.foldl (collectStep store) acc).2.2 = false := by
  induction days generalizing acc with
  | nil => simpa using hacc
  | cons d rest ih =>
    rw [List.foldl_cons]
    apply ih
    unfold collectStep
    cases getJiraDailyData store d <;> simp [hacc]

/-- A day without a bucket anywhere in the range clears the all-synced
flag of the read loop. -/
theorem collect_foldl_missing (store : DailyStore) {d : Nat} (days : List Nat)
    (hmem : d ∈ days) (hmiss : getJiraDailyData store d = none)
    (acc : List JiraActivity × Option Nat × Bool) :
    (days.foldl (collectStep store) acc).2.2 = false := by
  induction days generalizing acc with
  | nil => cases hmem
  | cons x rest ih =>
    rw [List.foldl_cons]
    rcases List.mem_cons.mp hmem with hEq | hmemRest
    · subst hEq
      apply collect_foldl_flag_false
      simp [collectStep, hmiss]
    · exact ih hmemRest _

/-- C2: the cache-only range read over a range in which at least one day
has no stored bucket answers the fixed not-synced response: synced is
false, every activity list is empty, and every summary count is zero; no
partial result built from the present buckets is returned. -/
theorem getActivityForRange_missing_day (store : DailyStore) (lo hi d : Nat)
    (hmem : d ∈ rangeDays lo hi) (hmiss : getJiraDailyData store d = none) :
    getActivityForRange store (rangeDays lo hi) = emptyRangeResponse := by
  have hflag := collect_foldl_missing store (rangeDays lo hi) hmem hmiss ([], none, true)
  simp [getActivityForRange, hflag]

/-- Witness for C2: a three-day range with buckets for the first two days
only reads back as the not-synced empty response. -/
theorem getActivityForRange_missing_day_witness :
    getActivityForRange
      (fun k => if k ≤ 1 then
        some { date := k, syncedAt := 50, activities := [],
               summary := ⟨0, 0, 0, 0, none⟩ }
        else none)
      (rangeDays 0 2) = emptyRangeResponse :=
  getActivityForRange_missing_day _ 0 2 2 (by decide) (by decide)

/-- A single-day range is the one-element list of that day. -/
theorem rangeDays_self (d : Nat) : rangeDays d d = [d] := by
  have h1 : d + 1 - d = 1 := by omega
  simp [rangeDays, h1, List.range_succ]

/-- C1 counterexample: syncing a day with zero upstream matches writes the
bucket with syncedAt set and an empty record list, yet the cache-only
read of exactly that day answers synced = false, not synced = true as
claimed. -/
theorem emptyDay_read_reports_not_synced_cex :
    (syncLoop "https://acme.atlassian.net" 100 (fun _ => Except.ok []) [0]
        (fun _ => none)).1 0 =
      some { date := 0, syncedAt := 100, activities := [], summary := ⟨0, 0, 0, 0, none⟩ } ∧
    (getActivityForRange
        (syncLoop "https://acme.atlassian.net" 100 (fun _ => Except.ok []) [0]
          (fun _ => none)).1
        (rangeDays 0 0)).synced = false := by
  constructor <;> rfl

/-- C1 as amended: syncing a day whose upstream query matches nothing
writes the daily bucket with records empty and syncedAt set — the
stored distinction between never-synced and synced-but-empty holds —
but the later cache-only read of exactly that day answers the
not-synced empty response with synced = false, because the read path
treats a range whose concatenated activity list is empty as not
synced. -/
theorem emptyDay_sync_then_read (baseUrl : String) (now day : Nat) (store : DailyStore)
    (fetch : Nat → Except String (List JiraIssue)) (hfetch : fetch day = Except.ok []) :
    (syncLoop baseUrl now fetch [day] store).2 = Except.ok [] ∧
    (syncLoop baseUrl now fetch [day] store).1 day =
      some { date := day, syncedAt := now, activities := [], summary := ⟨0, 0, 0, 0, none⟩ } ∧
    getActivityForRange (syncLoop baseUrl now fetch [day] store).1 (rangeDays day day) =
      emptyRangeResponse := by
  have hmk : mkDailyData baseUrl now day [] =
      { date := day, syncedAt := now, activities := [], summary := ⟨0, 0, 0, 0, none⟩ } := by
    simp [mkDailyData, summaryOf, activeIssueCount, totalSeconds, roundTenths]
  have hloop : syncLoop baseUrl now fetch [day] store =
      (saveJiraDailyData store (mkDailyData baseUrl now day []), Except.ok []) := by
    simp [syncLoop, hfetch, hmk]
  refine ⟨by rw [hloop], ?_, ?_⟩
  · rw [hloop, hmk]
    simp [saveJiraDailyData]
  · rw [hloop, rangeDays_self, hmk]
    simp [getActivityForRange, collectStep, getJiraDailyData, saveJiraDailyData]

/-- Witness for C1 as amended: the concrete empty-day sync at day 3. -/
theorem emptyDay_sync_then_read_witness :
    (syncLoop "https://acme.atlassian.net" 77 (fun _ => Except.ok []) [3]
        (fun _ => none)).1 3 =
      some { date := 3, syncedAt := 77, activities := [], summary := ⟨0, 0, 0, 0, none⟩ } ∧
    getActivityForRange
        (syncLoop "https://acme.atlassian.net" 77 (fun _ => Except.ok []) [3]
          (fun _ => none)).1 (rangeDays 3 3) =
      emptyRangeResponse :=
  ⟨(emptyDay_sync_then_read "https://acme.atlassian.net" 77 3 (fun _ => none)
      (fun _ => Except.ok []) rfl).2.1,
    (emptyDay_sync_then_read "https://acme.atlassian.net" 77 3 (fun _ => none)
      (fun _ => Except.ok []) rfl).2.2⟩

/-- C8: the sync handler attributes every changelog entry, comment, and
worklog by the UTC calendar day of its own timestamp, with the same
extraction rule for all three kinds: every non-issue record a day
receives carries a timestamp of that day (so a sub-entity of day D is
never attributed to day D + 1), and conversely every status changelog
entry, comment, and worklog whose own timestamp falls on the target day
produces its record in that day. -/
theorem dayBoundary_attribution (baseUrl : String) (day : Nat) (issue : JiraIssue) :
    (∀ a ∈ processIssue baseUrl day issue,
      a.type ≠ JiraActivityType.issue → dayOf a.date = day) ∧
    (∀ h ∈ issue.histories, ∀ item ∈ h.items, item.field = "status" →
      dayOf h.created = day →
      transitionRecord baseUrl issue h item ∈ processIssue baseUrl day issue) ∧
    (∀ c ∈ issue.comments, dayOf c.created = day →
      commentRecord baseUrl issue c ∈ processIssue baseUrl day issue) ∧
    (∀ w ∈ issue.worklogs, dayOf w.started = day →
      worklogRecord baseUrl issue w ∈ processIssue baseUrl day issue) := by
  refine ⟨?_, ?_, ?_, ?_⟩
  · intro a ha htype
    simp only [processIssue] at ha
    split at ha
    · cases ha
    · rcases List.mem_append.mp ha with hrecs | hissue
      · rcases List.mem_append.mp hrecs with hrecs2 | hw
        · rcases List.mem_append.mp hrecs2 with ht | hc
          · rcases List.mem_flatMap.mp ht with ⟨history, hhist, hmem⟩
            split at hmem
            · rcases List.mem_map.mp hmem with ⟨item, hitem, hEq⟩
              subst hEq
              simpa [transitionRecord] using (by assumption)
            · cases hmem
          · rcases List.mem_flatMap.mp hc with ⟨comment, hcm, hmem⟩
            split at hmem
            · rcases List.mem_singleton.mp hmem with hEq
              subst hEq
              simpa [commentRecord] using (by assumption)
            · cases hmem
        · rcases List.mem_flatMap.mp hw with ⟨worklog, hwl, hmem⟩
          split at hmem
          · rcases List.mem_singleton.mp hmem with hEq
            subst hEq
            simpa [worklogRecord] using (by assumption)
          · cases hmem
      · rcases List.mem_singleton.mp hissue with hEq
        subst hEq
        exact absurd rfl htype
  · intro h hh item hitem hfield hday
    have hmem : transitionRecord baseUrl issue h item ∈ transitionRecords baseUrl day issue := by
      refine List.mem_flatMap.mpr ⟨h, hh, ?_⟩
      rw [if_pos hday]
      exact List.mem_map.mpr ⟨item, List.mem_filter.mpr ⟨hitem, by simp [hfield]⟩, rfl⟩
    unfold processIssue
    have hne : ¬(transitionRecords baseUrl day issue ++ commentRecords baseUrl day issue ++
        worklogRecords baseUrl day issue).isEmpty := by
      simp only [List.isEmpty_iff, List.append_eq_nil]
      rintro ⟨⟨ht, -⟩, -⟩
      rw [ht] at hmem
      cases hmem
    rw [if_neg hne]
    exact List.mem_append.mpr (Or.inl
      (List.mem_append.mpr (Or.inl (List.mem_append.mpr (Or.inl hmem)))))
  · intro c hc hday
    have hmem : commentRecord baseUrl issue c ∈ commentRecords baseUrl day issue := by
      refine List.mem_flatMap.mpr ⟨c, hc, ?_⟩
      rw [if_pos hday]
      exact List.mem_singleton.mpr rfl
    unfold processIssue
    have hne : ¬(transitionRecords baseUrl day issue ++ commentRecords baseUrl day issue ++
        worklogRecords baseUrl day issue).isEmpty := by
      simp only [List.isEmpty_iff, List.append_eq_nil]
      rintro ⟨⟨-, hcm⟩, -⟩
      rw [hcm] at hmem
      cases hmem
    rw [if_neg hne]
    exact List.mem_append.mpr (Or.inl
      (List.mem_append.mpr (Or.inl (List.mem_append.mpr (Or.inr hmem)))))
  · intro w hw hday
    have hmem : worklogRecord baseUrl issue w ∈ worklogRecords baseUrl day issue := by
      refine List.mem_flatMap.mpr ⟨w, hw, ?_⟩
      rw [if_pos hday]
      exact List.mem_singleton.mpr rfl
    unfold processIssue
    have hne : ¬(transitionRecords baseUrl day issue ++ commentRecords baseUrl day issue ++
        worklogRecords baseUrl day issue).isEmpty := by
      simp only [List.isEmpty_iff, List.append_eq_nil]
      rintro ⟨-, hwl⟩
      rw [hwl] at hmem
      cases hmem
    rw [if_neg hne]
    exact List.mem_append.mpr (Or.inl (List.mem_append.mpr (Or.inr hmem)))

/-- Witness for C8: a comment timestamped 23:59:59 UTC of day 5 yields its
record in day 5, and day 6 receives no record carrying that timestamp. -/
theorem dayBoundary_attribution_witness :
    commentRecord "https://acme.atlassian.net" issueLateComment
        { id := "c1", created := 5 * 86400 + 86399, body := "hello" } ∈
      processIssue "https://acme.atlassian.net" 5 issueLateComment ∧
    ∀ a ∈ processIssue "https://acme.atlassian.net" 6 issueLateComment,
      a.type ≠ JiraActivityType.issue → dayOf a.date = 6 :=
  ⟨(dayBoundary_attribution "https://acme.atlassian.net" 5 issueLateComment).2.2.1
      { id := "c1", created := 5 * 86400 + 86399, body := "hello" }
      (by decide) (by decide),
    (dayBoundary_attribution "https://acme.atlassian.net" 6 issueLateComment).1⟩

/-- When the fetch of day k fails after every earlier day of the list
succeeded, the sync loop surfaces the error, leaves every day outside
the earlier prefix untouched, and keeps the bucket written for each
earlier day. -/
theorem syncLoop_error_state (baseUrl : String) (now : Nat)
    (fetch : Nat → Except String (List JiraIssue)) (pre : List Nat) (k : Nat)
    (post : List Nat) (e : String) (store : DailyStore)
    (hpre : ∀ d ∈ pre, ∃ issues, fetch d = Except.ok issues)
    (hk : fetch k = Except.error e) (hnd : pre.Nodup) :
    (syncLoop baseUrl now fetch (pre ++ k :: post) store).2 = Except.error e ∧
    (∀ d, d ∉ pre → (syncLoop baseUrl now fetch (pre ++ k :: post) store).1 d = store d) ∧
    (∀ d ∈ pre, ∀ issues, fetch d = Except.ok issues →
      (syncLoop baseUrl now fetch (pre ++ k :: post) store).1 d =
        some (mkDailyData baseUrl now d issues)) := by
  revert hpre hnd
  induction pre generalizing store with
  | nil =>
    intro hpre hnd
    refine ⟨?_, ?_, ?_⟩
    · simp [syncLoop, hk]
    · intro d _
      simp [syncLoop, hk]
    · intro d hd
      cases hd
  | cons x xs ih =>
    intro hpre hnd
    obtain ⟨isx, hx⟩ := hpre x (List.mem_cons_self x xs)
    have hxs : ∀ d ∈ xs, ∃ issues, fetch d = Except.ok issues := fun d hd =>
      hpre d (List.mem_cons_of_mem x hd)
    have hndxs : xs.Nodup := hnd.of_cons
    have hxnot : x ∉ xs := (List.nodup_cons.mp hnd).1
    set store1 := saveJiraDailyData store (mkDailyData baseUrl now x isx) with hstore1
    have ihx := ih store1 hxs hndxs
    rcases hsync : syncLoop baseUrl now fetch (xs ++ k :: post) store1 with ⟨s2, r2⟩
    rw [hsync] at ihx
    have hr2 : r2 = Except.error e := ihx.1
    subst hr2
    have hloop : syncLoop baseUrl now fetch ((x :: xs) ++ k :: post) store =
        (s2, Except.error e) := by
      rw [List.cons_append]
      simp [syncLoop, hx, ← hstore1, hsync]
    refine ⟨by rw [hloop], ?_, ?_⟩
    · intro d hd
      rw [hloop]
      have hdx : d ≠ x := fun hEq => hd (hEq ▸ List.mem_cons_self x xs)
      have hdxs : d ∉ xs := fun hmem => hd (List.mem_cons_of_mem x hmem)
      have h1 : s2 d = store1 d := ihx.2.1 d hdxs
      show s2 d = store d
      rw [h1, hstore1]
      simp [saveJiraDailyData, mkDailyData, hdx]
    · intro d hd issues hissues
      rw [hloop]
      rcases List.mem_cons.mp hd with hEq | hmem
      · subst hEq
        have hiseq : issues = isx := by
          rw [hx] at hissues
          exact (Except.ok.injEq _ _ ▸ hissues.symm : _)
        subst hiseq
        have h1 : s2 d = store1 d := ihx.2.1 d hxnot
        show s2 d = some (mkDailyData baseUrl now d issues)
        rw [h1, hstore1]
        simp [saveJiraDailyData, mkDailyData]
      · exact ihx.2.2 d hmem issues hissues

/-- C7: when the upstream query of some day k of the range throws after
the earlier days succeeded, POST /api/jira/sync answers the error
envelope, the buckets written for the earlier days keep exactly what
was written for them (no rollback), and the bucket of every day outside
the earlier prefix — day k and every later day included — is left
unmodified. -/
theorem jiraSync_failure_keeps_earlier_days (baseUrl : String) (now : Nat)
    (fetch : Nat → Except String (List JiraIssue)) (store : DailyStore)
    (pre post : List Nat) (k : Nat) (e : String)
    (hpre : ∀ d ∈ pre, ∃ issues, fetch d = Except.ok issues)
    (hk : fetch k = Except.error e) (hnd : pre.Nodup) :
    (postJiraSync baseUrl now fetch (pre ++ k :: post) store).2 = Except.error e ∧
    (∀ d, d ∉ pre →
      (postJiraSync baseUrl now fetch (pre ++ k :: post) store).1 d = store d) ∧
    (∀ d ∈ pre, ∀ issues, fetch d = Except.ok issues →
      (postJiraSync baseUrl now fetch (pre ++ k :: post) store).1 d =
        some (mkDailyData baseUrl now d issues)) := by
  have h := syncLoop_error_state baseUrl now fetch pre k post e store hpre hk hnd
  rcases hsync : syncLoop baseUrl now fetch (pre ++ k :: post) store with ⟨s2, r2⟩
  rw [hsync] at h
  have hr2 : r2 = Except.error e := h.1
  subst hr2
  have hpost : postJiraSync baseUrl now fetch (pre ++ k :: post) store =
      (s2, Except.error e) := by
    simp [postJiraSync, hsync]
  rw [hpost]
  exact ⟨rfl, fun d hd => h.2.1 d hd, fun d hd issues hiss => h.2.2 d hd issues hiss⟩

/-- Witness for C7: day 0 succeeds with no issues, day 1 fails; the error
surfaces, the bucket of day 0 is written, and days 1 and 2 stay empty. -/
theorem jiraSync_failure_keeps_earlier_days_witness :
    (postJiraSync "https://acme.atlassian.net" 9
        (fun d => if d = 0 then Except.ok [] else Except.error "boom")
        ([0] ++ 1 :: [2]) (fun _ => none)).2 = Except.error "boom" ∧
    (postJiraSync "https://acme.atlassian.net" 9
        (fun d => if d = 0 then Except.ok [] else Except.error "boom")
        ([0] ++ 1 :: [2]) (fun _ => none)).1 2 = none := by
  have h := jiraSync_failure_keeps_earlier_days "https://acme.atlassian.net" 9
    (fun d => if d = 0 then Except.ok [] else Except.error "boom") (fun _ => none)
    [0] [2] 1 "boom"
    (fun d hd => ⟨[], by simp at hd; simp [hd]⟩) (by simp) (by simp)
  exact ⟨h.1, h.2.1 2 (by simp)⟩

/-- Every record surviving the seen-set dedup carries an id outside the
seen set, and the surviving ids are distinct. -/
theorem dedupByIdGo_spec (l : List JiraActivity) (seen : List String) :
    (∀ a ∈ dedupByIdGo seen l, a.id ∉ seen) ∧
    ((dedupByIdGo seen l).map (fun a => a.id)).Nodup := by
  induction l generalizing seen with
  | nil => simp [dedupByIdGo]
  | cons a rest ih =>
    by_cases hmem : a.id ∈ seen
    · rw [dedupByIdGo, if_pos hmem]
      exact ih seen
    · rw [dedupByIdGo, if_neg hmem]
      have ih2 := ih (a.id :: seen)
      refine ⟨?_, ?_⟩
      · intro b hb
        rcases List.mem_cons.mp hb with hEq | hbrest
        · subst hEq; exact hmem
        · have := ih2.1 b hbrest
          exact fun hs => this (List.mem_cons_of_mem _ hs)
      · rw [List.map_cons]
        refine List.nodup_cons.mpr ⟨?_, ih2.2⟩
        intro hin
        rcases List.mem_map.mp hin with ⟨b, hbrest, hEq⟩
        have := ih2.1 b hbrest
        exact this (hEq ▸ List.mem_cons_self _ _)

/-- C3 counterexample: an issue touched on both days of a two-day sync
range yields its synthetic issue-touched record once per day in the
aggregated response, so the id issue-1 appears twice in the returned
issues list — the sync response is not deduplicated by id. -/
theorem jiraSync_response_duplicate_ids_cex :
    ((postJiraSync "https://acme.atlassian.net" 99 fetchTwoDays (rangeDays 0 1)
        (fun _ => none)).2.toOption.map
      (fun r => r.issues.map (fun a => a.id))) = some ["issue-1", "issue-1"] ∧
    ¬ (["issue-1", "issue-1"] : List String).Nodup := by
  exact ⟨rfl, by decide⟩

/-- C3 as amended: the aggregated sync response is built from the plain
concatenation of the per-day record lists, with no dedup by id — a
record id occurs once per day that emitted it, as the counterexample
shows for an issue touched on two days; dedup by id is applied only by
the cache-only read path. -/
theorem jiraSync_response_concatenates_days :
    (∀ (baseUrl : String) (now : Nat) (fetch : Nat → Except String (List JiraIssue))
      (days : List Nat) (store : DailyStore) (acts : List JiraActivity),
      (syncLoop baseUrl now fetch days store).2 = Except.ok acts →
      acts = days.flatMap (fun d =>
        match fetch d with
        | Except.ok issues => issues.flatMap (processIssue baseUrl d)
        | Except.error _ => [])) ∧
    (∀ l : List JiraActivity, ((dedupById l).map (fun a => a.id)).Nodup) := by
  constructor
  · intro baseUrl now fetch days
    induction days with
    | nil =>
      intro store acts h
      rw [syncLoop] at h
      cases h
      simp
    | cons d rest ih =>
      intro store acts h
      rw [syncLoop] at h
      rcases hfetch : fetch d with e | issues
      · rw [hfetch] at h
        cases h
      · rw [hfetch] at h
        dsimp only at h
        rcases hrest : syncLoop baseUrl now fetch rest
            (saveJiraDailyData store (mkDailyData baseUrl now d issues)) with ⟨s2, r2⟩
        rw [hrest] at h
        cases r2 with
        | error e => simp at h
        | ok acts2 =>
          dsimp only at h
          obtain rfl : (mkDailyData baseUrl now d issues).activities ++ acts2 = acts :=
            Except.ok.inj h
          have hacts2 := ih _ acts2 (by rw [hrest])
          rw [List.flatMap_cons, hfetch, ← hacts2]
          rfl
  · intro l
    exact (dedupByIdGo_spec l []).2

/-- Witness for C3 as amended: the two-day sync of the counterexample
aggregates exactly the concatenation of the two per-day lists, with the
issue-touched id repeated, and the read-path dedup of that list has
distinct ids. -/
theorem jiraSync_response_concatenates_days_witness :
    twoDayActs = (rangeDays 0 1).flatMap (fun d =>
      match fetchTwoDays d with
      | Except.ok issues => issues.flatMap (processIssue "https://acme.atlassian.net" d)
      | Except.error _ => []) ∧
    ((dedupById twoDayActs).map (fun a => a.id)).Nodup :=
  ⟨jiraSync_response_concatenates_days.1 "https://acme.atlassian.net" 99 fetchTwoDays
      (rangeDays 0 1) (fun _ => none) twoDayActs rfl,
    jiraSync_response_concatenates_days.2 twoDayActs⟩

/-- C5 counterexample: reading the config for display masks the real
github secret to the placeholder, but posting that displayed document
back through the generic POST /api/config write persists the
placeholder itself over the real secret. -/
theorem postConfig_persists_placeholder_cex :
    (maskedConfig configSecret).github.token = some "***" ∧
    (postConfig configSecret maskedBodyFull).github.token = some "***" ∧
    (postConfig configSecret maskedBodyFull).github.token ≠ some "s3cret" := by
  exact ⟨rfl, rfl, by decide⟩

/-- C5 as amended: the masking round-trip holds for the dedicated write
endpoints POST /api/github/config and POST /api/config/openrouter,
which treat an incoming placeholder value as no change: the display of
a valid secret is the placeholder, and posting a body carrying the
placeholder back leaves the stored secret unchanged. The generic POST
/api/config has no such guard and persists the placeholder verbatim,
as the counterexample shows. -/
theorem dedicatedConfig_masking_roundtrip (c : AppConfig) :
    (isValidSecret c.github.token = true → (maskedConfig c).github.token = some "***") ∧
    (∀ body : GithubConfigBody, body.token = some "***" →
      (postGithubConfig c body).github.token = c.github.token) ∧
    (isValidSecret c.openrouter.apiKey = true →
      (maskedConfig c).openrouter.apiKey = some "***") ∧
    (∀ body : OpenrouterConfigBody, body.apiKey = some (some "***") →
      (postOpenrouterConfig c body).openrouter.apiKey = c.openrouter.apiKey) := by
  have hcond : (!(("***" : String) == "") && !(("***" : String) == "***")) = false := by
    decide
  refine ⟨?_, ?_, ?_, ?_⟩
  · intro h
    simp [maskedConfig, h]
  · intro body hb
    simp [postGithubConfig, hb, hcond, saveConfig, mergeGithub]
  · intro h
    simp [maskedConfig, h]
  · intro body hb
    simp [postOpenrouterConfig, hb, hcond, saveConfig, mergeOpenrouter]

/-- The core of the rolling-cache insertion shared by the github and jira
caches: filter out already-cached ids, prepend, sort descending by
date, truncate to 500. With distinct cached ids and distinct incoming
ids, the result has distinct ids, is bounded by 500, is sorted
descending, keeps the cached copy for every cached id that survives,
draws every record from the inputs, and drops only records no newer
than every kept one. -/
theorem rollingAdd_spec {α : Type} (fid : α → String) (fdate : α → Nat)
    (old new filtered result : List α)
    (hold : (old.map fid).Nodup) (hnew : (new.map fid).Nodup)
    (hfiltered : filtered = new.filter (fun a => decide (fid a ∉ old.map fid)))
    (hresult : result =
      ((filtered ++ old).mergeSort (fun a b => decide (fdate b ≤ fdate a))).take 500) :
    (result.map fid).Nodup ∧
    result.length ≤ 500 ∧
    result.Pairwise (fun a b => fdate b ≤ fdate a) ∧
    (∀ a ∈ result, fid a ∈ old.map fid → a ∈ old) ∧
    (∀ a ∈ result, a ∈ new ∨ a ∈ old) ∧
    (∀ a, a ∈ old ∨ a ∈ filtered → a ∉ result → ∀ b ∈ result, fdate a ≤ fdate b) := by
  have hfid_not : ∀ a ∈ filtered, fid a ∉ old.map fid := by
    intro a ha
    rw [hfiltered] at ha
    exact of_decide_eq_true (List.mem_filter.mp ha).2
  have hfsub : filtered.Sublist new := by
    rw [hfiltered]; exact List.filter_sublist new
  have hmerged_nodup : ((filtered ++ old).map fid).Nodup := by
    rw [List.map_append]
    refine List.Nodup.append ((hfsub.map fid).nodup hnew) hold ?_
    intro x hx hxold
    rcases List.mem_map.mp hx with ⟨a, ha, rfl⟩
    exact hfid_not a ha hxold
  have hperm : List.Perm
      ((filtered ++ old).mergeSort (fun a b => decide (fdate b ≤ fdate a)))
      (filtered ++ old) := List.mergeSort_perm _ _
  have hsorted_nodup : (((filtered ++ old).mergeSort
      (fun a b => decide (fdate b ≤ fdate a))).map fid).Nodup :=
    ((hperm.map fid).nodup_iff).mpr hmerged_nodup
  have htake_sub : result.Sublist
      ((filtered ++ old).mergeSort (fun a b => decide (fdate b ≤ fdate a))) := by
    rw [hresult]; exact List.take_sublist _ _
  have hmem_sorted : ∀ a ∈ result,
      a ∈ (filtered ++ old).mergeSort (fun a b => decide (fdate b ≤ fdate a)) :=
    fun a ha => htake_sub.subset ha
  have hmem_merged : ∀ a ∈ result, a ∈ filtered ++ old := by
    intro a ha
    exact (List.mem_mergeSort).mp (hmem_sorted a ha)
  have hpair : ((filtered ++ old).mergeSort (fun a b => decide (fdate b ≤ fdate a))).Pairwise
      (fun a b => fdate b ≤ fdate a) := by
    have htrans : ∀ a b c : α, (fun a b => decide (fdate b ≤ fdate a)) a b →
        (fun a b => decide (fdate b ≤ fdate a)) b c →
        (fun a b => decide (fdate b ≤ fdate a)) a c := by
      intro a b c hab hbc
      simp only [decide_eq_true_eq] at *
      exact Nat.le_trans hbc hab
    have htotal : ∀ a b : α, (fun a b => decide (fdate b ≤ fdate a)) a b ||
        (fun a b => decide (fdate b ≤ fdate a)) b a := by
      intro a b
      rcases Nat.le_total (fdate a) (fdate b) with h | h <;> simp [h]
    have := List.sorted_mergeSort htrans htotal (filtered ++ old)
    exact this.imp (fun h => of_decide_eq_true h)
  refine ⟨?_, ?_, ?_, ?_, ?_, ?_⟩
  · exact (htake_sub.map fid).nodup hsorted_nodup
  · rw [hresult, List.length_take]
    exact Nat.min_le_left _ _
  · exact hpair.sublist htake_sub
  · intro a ha hid
    rcases List.mem_append.mp (hmem_merged a ha) with hf | ho
    · exact absurd hid (hfid_not a hf)
    · exact ho
  · intro a ha
    rcases List.mem_append.mp (hmem_merged a ha) with hf | ho
    · exact Or.inl (hfsub.subset hf)
    · exact Or.inr ho
  · intro a hmem hnotres b hb
    have hasorted : a ∈ (filtered ++ old).mergeSort (fun a b => decide (fdate b ≤ fdate a)) := by
      rw [List.mem_mergeSort]
      rcases hmem with ho | hf
      · exact List.mem_append.mpr (Or.inr ho)
      · exact List.mem_append.mpr (Or.inl hf)
    have hadrop : a ∈ ((filtered ++ old).mergeSort
        (fun a b => decide (fdate b ≤ fdate a))).drop 500 := by
      have hsplit := List.take_append_drop 500
        ((filtered ++ old).mergeSort (fun a b => decide (fdate b ≤ fdate a)))
      rw [← hsplit] at hasorted
      rcases List.mem_append.mp hasorted with htk | hdp
      · exact absurd htk (by rw [hresult] at hnotres; exact hnotres)
      · exact hdp
    have hbtake : b ∈ ((filtered ++ old).mergeSort
        (fun a b => decide (fdate b ≤ fdate a))).take 500 := by
      rw [hresult] at hb; exact hb
    exact List.Sorted.rel_of_mem_take_of_mem_drop hpair hbtake hadrop

/-- Witness for C5 as amended: concrete secrets round-trip unchanged
through POST /api/github/config and POST /api/config/openrouter. -/
theorem dedicatedConfig_masking_roundtrip_witness :
    (maskedConfig configBothSecrets).github.token = some "***" ∧
    (postGithubConfig configBothSecrets { token := some "***" }).github.token =
      configBothSecrets.github.token ∧
    (maskedConfig configBothSecrets).openrouter.apiKey = some "***" ∧
    (postOpenrouterConfig configBothSecrets
        { apiKey := some (some "***") }).openrouter.apiKey =
      configBothSecrets.openrouter.apiKey :=
  ⟨(dedicatedConfig_masking_roundtrip configBothSecrets).1 (by decide),
    (dedicatedConfig_masking_roundtrip configBothSecrets).2.1 { token := some "***" } rfl,
    (dedicatedConfig_masking_roundtrip configBothSecrets).2.2.1 (by decide),
    (dedicatedConfig_masking_roundtrip configBothSecrets).2.2.2
      { apiKey := some (some "***") } rfl⟩

/-- C4 counterexample: the dedup of addGitHubActivities only filters the
incoming batch against already-cached ids, so two incoming records
sharing an id both enter the cache and the resulting id list is not
duplicate-free. -/
theorem addGitHubActivities_duplicate_incoming_cex :
    ¬ (((addGitHubActivities { lastSync := none, activities := [] } [ghDupA, ghDupB]
        7).activities.map (fun a => a.id)).Nodup) := by
  have hl : (addGitHubActivities { lastSync := none, activities := [] } [ghDupA, ghDupB]
        7).activities =
      ([ghDupA, ghDupB].mergeSort (fun a b => decide (b.date ≤ a.date))).take 500 := rfl
  have hlen : ([ghDupA, ghDupB].mergeSort (fun a b => decide (b.date ≤ a.date))).length = 2 :=
    (List.mergeSort_perm _ _).length_eq
  have htake : (addGitHubActivities { lastSync := none, activities := [] } [ghDupA, ghDupB]
        7).activities = [ghDupA, ghDupB].mergeSort (fun a b => decide (b.date ≤ a.date)) := by
    rw [hl]
    exact List.take_of_length_le (by rw [hlen]; omega)
  have hperm : List.Perm ((addGitHubActivities { lastSync := none, activities := [] }
      [ghDupA, ghDupB] 7).activities) [ghDupA, ghDupB] := by
    rw [htake]; exact List.mergeSort_perm _ _
  have hmapperm : List.Perm ((addGitHubActivities { lastSync := none, activities := [] }
      [ghDupA, ghDupB] 7).activities.map (fun a => a.id)) ["x", "x"] := hperm.map _
  intro hnd
  have := hmapperm.nodup_iff.mp hnd
  simp at this

/-- C4 as amended: provided the prior cache has distinct record ids AND
the incoming batch itself has distinct ids (the code only filters
incoming records against already-cached ids, so duplicates inside one
batch survive, as the counterexample shows), addGitHubActivities and
addJiraActivities produce a cache with distinct ids, at most 500
records, sorted descending by timestamp; a surviving record whose id
was cached is the previously cached copy, never the incoming one; every
record comes from the inputs; and only records no newer than every kept
record are dropped by the truncation. -/
theorem rollingCache_add_spec :
    (∀ (cache : GitHubCache) (incoming : List GitHubActivity) (now : Nat),
      (cache.activities.map (fun a => a.id)).Nodup →
      (incoming.map (fun a => a.id)).Nodup →
      (((addGitHubActivities cache incoming now).activities.map (fun a => a.id)).Nodup ∧
       (addGitHubActivities cache incoming now).activities.length ≤ 500 ∧
       (addGitHubActivities cache incoming now).activities.Pairwise
         (fun a b => b.date ≤ a.date) ∧
       (∀ a ∈ (addGitHubActivities cache incoming now).activities,
         a.id ∈ cache.activities.map (fun b => b.id) → a ∈ cache.activities) ∧
       (∀ a ∈ (addGitHubActivities cache incoming now).activities,
         a ∈ incoming ∨ a ∈ cache.activities) ∧
       (∀ a, a ∈ cache.activities ∨
           (a ∈ incoming ∧ a.id ∉ cache.activities.map (fun b => b.id)) →
         a ∉ (addGitHubActivities cache incoming now).activities →
         ∀ b ∈ (addGitHubActivities cache incoming now).activities, a.date ≤ b.date))) ∧
    (∀ (cache : JiraCache) (incoming : List JiraActivity) (now : Nat),
      (cache.activities.map (fun a => a.id)).Nodup →
      (incoming.map (fun a => a.id)).Nodup →
      (((addJiraActivities cache incoming now).activities.map (fun a => a.id)).Nodup ∧
       (addJiraActivities cache incoming now).activities.length ≤ 500 ∧
       (addJiraActivities cache incoming now).activities.Pairwise
         (fun a b => b.date ≤ a.date) ∧
       (∀ a ∈ (addJiraActivities cache incoming now).activities,
         a.id ∈ cache.activities.map (fun b => b.id) → a ∈ cache.activities) ∧
       (∀ a ∈ (addJiraActivities cache incoming now).activities,
         a ∈ incoming ∨ a ∈ cache.activities) ∧
       (∀ a, a ∈ cache.activities ∨
           (a ∈ incoming ∧ a.id ∉ cache.activities.map (fun b => b.id)) →
         a ∉ (addJiraActivities cache incoming now).activities →
         ∀ b ∈ (addJiraActivities cache incoming now).activities, a.date ≤ b.date))) := by
  constructor
  · intro cache incoming now h1 h2
    have hres : (addGitHubActivities cache incoming now).activities =
        ((incoming.filter (fun a => decide (a.id ∉ cache.activities.map (fun b => b.id))) ++
          cache.activities).mergeSort (fun a b => decide (b.date ≤ a.date))).take 500 := rfl
    have h := rollingAdd_spec (fun a => a.id) (fun a => a.date) cache.activities incoming
      (incoming.filter (fun a => decide (a.id ∉ cache.activities.map (fun b => b.id))))
      ((addGitHubActivities cache incoming now).activities) h1 h2 rfl hres
    refine ⟨h.1, h.2.1, h.2.2.1, h.2.2.2.1, h.2.2.2.2.1, ?_⟩
    intro a hcase hnot b hb
    refine h.2.2.2.2.2 a ?_ hnot b hb
    rcases hcase with ho | ⟨hin, hid⟩
    · exact Or.inl ho
    · exact Or.inr (List.mem_filter.mpr ⟨hin, decide_eq_true hid⟩)
  · intro cache incoming now h1 h2
    have hres : (addJiraActivities cache incoming now).activities =
        ((incoming.filter (fun a => decide (a.id ∉ cache.activities.map (fun b => b.id))) ++
          cache.activities).mergeSort (fun a b => decide (b.date ≤ a.date))).take 500 := rfl
    have h := rollingAdd_spec (fun a => a.id) (fun a => a.date) cache.activities incoming
      (incoming.filter (fun a => decide (a.id ∉ cache.activities.map (fun b => b.id))))
      ((addJiraActivities cache incoming now).activities) h1 h2 rfl hres
    refine ⟨h.1, h.2.1, h.2.2.1, h.2.2.2.1, h.2.2.2.2.1, ?_⟩
    intro a hcase hnot b hb
    refine h.2.2.2.2.2 a ?_ hnot b hb
    rcases hcase with ho | ⟨hin, hid⟩
    · exact Or.inl ho
    · exact Or.inr (List.mem_filter.mpr ⟨hin, decide_eq_true hid⟩)

/-- Witness for C4 as amended: inserting one fresh record into each empty
cache yields distinct ids and respects the 500 bound. -/
theorem rollingCache_add_spec_witness :
    (((addGitHubActivities { lastSync := none, activities := [] } [ghSolo]
        3).activities.map (fun a => a.id)).Nodup ∧
      (addGitHubActivities { lastSync := none, activities := [] } [ghSolo]
        3).activities.length ≤ 500) ∧
    (((addJiraActivities { lastSync := none, activities := [] } [jiraSolo]
        3).activities.map (fun a => a.id)).Nodup ∧
      (addJiraActivities { lastSync := none, activities := [] } [jiraSolo]
        3).activities.length ≤ 500) :=
  ⟨⟨(rollingCache_add_spec.1 { lastSync := none, activities := [] } [ghSolo] 3
      (by decide) (by decide)).1,
    (rollingCache_add_spec.1 { lastSync := none, activities := [] } [ghSolo] 3
      (by decide) (by decide)).2.1⟩,
   ⟨(rollingCache_add_spec.2 { lastSync := none, activities := [] } [jiraSolo] 3
      (by decide) (by decide)).1,
    (rollingCache_add_spec.2 { lastSync := none, activities := [] } [jiraSolo] 3
      (by decide) (by decide)).2.1⟩⟩

end Werkday
